import Mathlib

/-!
Verification of the token-extraction function of the `rfc6750` repository
(`src/index.js`), a single pure function `extractTokenFromRequest` that
extracts an RFC 6750 bearer token from a decomposed request object,
checking four sources in a fixed precedence order:
authorization header, body, query string, cookie header.

The embedding is shallow: JavaScript strings become `String`, the
`query` / `headers` / `body` objects become optional association lists
(`none` models an absent / null object, a missing property reads as
`undefined`, modelled by `Option.none`), and the JavaScript result
(`string | null | undefined`) becomes `Option String`, where `none`
covers both `null` and the implicit `undefined` return.  JavaScript
string operations used by the source (`indexOf`, `split(' ')`) are
re-implemented over `List Char` so that every definition kernel-reduces
on concrete inputs.
-/

/-- Constant from src/index.js line 1: `BEARER_SCHEME = 'Bearer'`. -/
def BEARER_SCHEME : String := "Bearer"

/-- Constant from src/index.js line 2: `AUTHORIZATION_HEADER = 'Authorization'`. -/
def AUTHORIZATION_HEADER : String := "Authorization"

/-- Constant from src/index.js line 3: `COOKIE_HEADER = 'Cookie'`. -/
def COOKIE_HEADER : String := "Cookie"

/-- Constant from src/index.js line 4: `ACCESS_TOKEN_PARAMETER = 'access_token'`. -/
def ACCESS_TOKEN_PARAMETER : String := "access_token"

/-- A JavaScript object holding string-valued properties, as an association
list; property access `o[k]` on a present object returns the first binding
or `undefined` (`none`). -/
def jsGet (o : List (String × String)) (k : String) : Option String :=
  (o.find? (fun p => p.1 == k)).map (fun p => p.2)

/-- The guarded lookup pattern of src/index.js lines 26-29:
`obj ? obj[key] : null` — an absent object yields `null`, a present one is
indexed. -/
def maybeGet (o : Option (List (String × String))) (k : String) : Option String :=
  match o with
  | some l => jsGet l k
  | none => none

/-- JavaScript truthiness of a `string | null | undefined` value:
`null` and `undefined` are falsy, a string is truthy iff non-empty. -/
def truthy : Option String → Bool
  | none => false
  | some s => s != ""

/-- Whether `p` is an initial segment of `l` (helper for the substring
test behind JavaScript `indexOf`). -/
def leadsWith : List Char → List Char → Bool
  | [], _ => true
  | _ :: _, [] => false
  | p :: ps, c :: cs => p == c && leadsWith ps cs

/-- Whether `pat` occurs as a contiguous subsequence of the second list. -/
def containsSeq (pat : List Char) : List Char → Bool
  | [] => leadsWith pat []
  | c :: cs => leadsWith pat (c :: cs) || containsSeq pat cs

/-- JavaScript `s.indexOf(pat) !== -1`: `pat` occurs as a substring of `s`. -/
def jsIncludes (s pat : String) : Bool :=
  containsSeq pat.toList s.toList

/-- Split a character list at every occurrence of the separator character;
always returns at least one (possibly empty) field, like JavaScript
`String.prototype.split` with a single-character separator. -/
def splitOnCharList (sep : Char) : List Char → List (List Char)
  | [] => [[]]
  | c :: cs =>
    match splitOnCharList sep cs with
    | [] => [[]]
    | r :: rs => if c == sep then [] :: r :: rs else (c :: r) :: rs

/-- JavaScript `s.split(' ')`: the space-delimited fields of `s`,
empty fields included. -/
def jsSplitSpace (s : String) : List String :=
  (splitOnCharList ' ' s.toList).map (fun cs => String.mk cs)

/-- Drop leading space characters. -/
def dropSpaces : List Char → List Char
  | [] => []
  | c :: cs => if c == ' ' then dropSpaces cs else c :: cs

/-- Trim space characters from both ends. -/
def trimChars (cs : List Char) : List Char :=
  ((dropSpaces ((dropSpaces cs.reverse)).reverse))

/-- Split a character list at the first `=`, if any: the cookie-pair
name/value separation. -/
def breakEq : List Char → Option (List Char × List Char)
  | [] => none
  | c :: cs =>
    if c == '=' then some ([], cs)
    else
      match breakEq cs with
      | none => none
      | some (n, v) => some (c :: n, v)

/-- A single `name=value` cookie pair; a fragment without `=` is dropped. -/
def parseCookiePair (part : List Char) : Option (String × String) :=
  match breakEq part with
  | none => none
  | some (n, v) => some (String.mk (trimChars n), String.mk (trimChars v))

/-- Modelled from the spec: the external cookie-parsing collaborator
(`cookie.parse` at src/index.js line 56; its binding is not part of
src/).  Per spec §4.1 and §6 it turns a cookie header string into a
mapping of cookie-name → cookie-value, never throws, and yields an
empty mapping on unparseable input: the string is split on `;`, each
`name=value` fragment becomes a binding with surrounding spaces
trimmed, fragments without `=` are ignored. -/
def cookieParse (s : String) : List (String × String) :=
  (splitOnCharList ';' s.toList).filterMap parseCookiePair

/-- The decomposed request object `{ query, headers, body }` of
src/index.js line 20; each field is an optional object (absent models a
missing / null field). -/
structure RequestView where
  query : Option (List (String × String)) := none
  headers : Option (List (String × String)) := none
  body : Option (List (String × String)) := none

/-- The optional configuration object of src/index.js lines 20-23, with
per-key destructuring defaults; `none` in a field models a missing key
(the default then applies). -/
structure ExtractConfig where
  authorizationHeaderKey : Option String := none
  cookieHeaderKey : Option String := none

/-- Effective authorization-header key: the destructuring default
`authorizationHeaderKey = AUTHORIZATION_HEADER` of src/index.js line 21. -/
def effAuthKey (config : ExtractConfig) : String :=
  config.authorizationHeaderKey.getD AUTHORIZATION_HEADER

/-- Effective cookie-header key: the destructuring default
`cookieHeaderKey = COOKIE_HEADER` of src/index.js line 22. -/
def effCookieKey (config : ExtractConfig) : String :=
  config.cookieHeaderKey.getD COOKIE_HEADER

/-- `authHeader` of src/index.js line 26:
`headers ? headers[authorizationHeaderKey] : null`. -/
def authHeaderOf (req : RequestView) (config : ExtractConfig) : Option String :=
  maybeGet req.headers (effAuthKey config)

/-- `cookieHeader` of src/index.js line 27:
`headers ? headers[cookieHeaderKey] : null`. -/
def cookieHeaderOf (req : RequestView) (config : ExtractConfig) : Option String :=
  maybeGet req.headers (effCookieKey config)

/-- `fromQuery` of src/index.js line 28:
`query ? query[ACCESS_TOKEN_PARAMETER] : null`. -/
def fromQueryOf (req : RequestView) : Option String :=
  maybeGet req.query ACCESS_TOKEN_PARAMETER

/-- `fromBody` of src/index.js line 29:
`body ? body[ACCESS_TOKEN_PARAMETER] : null`. -/
def fromBodyOf (req : RequestView) : Option String :=
  maybeGet req.body ACCESS_TOKEN_PARAMETER

/-- The body of `extractTokenFromRequest` (src/index.js lines 20-64),
parameterised by the external cookie parser.  The `else if` chain of the
source is mirrored branch for branch:
header (line 31, guard `authHeader && authHeader.indexOf('Bearer ') !== -1`,
result `authHeader.split(' ')[1]`, where an out-of-range index would be
`undefined`, i.e. `none`); body (line 37); query (line 44); cookie
(lines 51-60, with the inner `if (fromCookie)` and the implicit
`undefined` return when it fails); final `else return null` (line 62). -/
def extractTokenFromRequestWith (parse : String → List (String × String))
    (req : RequestView) (config : ExtractConfig) : Option String :=
  if truthy (authHeaderOf req config)
      && jsIncludes ((authHeaderOf req config).getD "") (BEARER_SCHEME ++ " ") then
    (jsSplitSpace ((authHeaderOf req config).getD "")).get? 1
  else if truthy (fromBodyOf req) then
    fromBodyOf req
  else if truthy (fromQueryOf req) then
    fromQueryOf req
  else if truthy (cookieHeaderOf req config) then
    if truthy (jsGet (parse ((cookieHeaderOf req config).getD "")) ACCESS_TOKEN_PARAMETER) then
      jsGet (parse ((cookieHeaderOf req config).getD "")) ACCESS_TOKEN_PARAMETER
    else none
  else none

/-- `extractTokenFromRequest` as exported by src/index.js line 69: the
extraction procedure instantiated with the cookie-parsing collaborator. -/
def extractTokenFromRequest (req : RequestView) (config : ExtractConfig) : Option String :=
  extractTokenFromRequestWith cookieParse req config

/-- Helper: when the authorization header is truthy and contains the
substring `"Bearer "`, the header branch (src/index.js line 35) fires and
the result is `authHeader.split(' ')[1]`. -/
lemma extract_header_branch (parse : String → List (String × String))
    (req : RequestView) (config : ExtractConfig) (a : String)
    (ha : authHeaderOf req config = some a) (h1 : a ≠ "")
    (h2 : jsIncludes a (BEARER_SCHEME ++ " ") = true) :
    extractTokenFromRequestWith parse req config = (jsSplitSpace a).get? 1 := by
  unfold extractTokenFromRequestWith
  rw [ha]
  simp [truthy, h1, h2]

/-- Helper: when the header guard is false and body and query tokens are
falsy, control reaches the cookie check (src/index.js line 51). -/
lemma extract_past_three (parse : String → List (String × String))
    (req : RequestView) (config : ExtractConfig)
    (h1 : (truthy (authHeaderOf req config)
      && jsIncludes ((authHeaderOf req config).getD "") (BEARER_SCHEME ++ " ")) = false)
    (h2 : truthy (fromBodyOf req) = false)
    (h3 : truthy (fromQueryOf req) = false) :
    extractTokenFromRequestWith parse req config =
      if truthy (cookieHeaderOf req config) then
        (if truthy (jsGet (parse ((cookieHeaderOf req config).getD "")) ACCESS_TOKEN_PARAMETER) then
          jsGet (parse ((cookieHeaderOf req config).getD "")) ACCESS_TOKEN_PARAMETER
        else none)
      else none := by
  unfold extractTokenFromRequestWith
  rw [h1, h2, h3]
  simp

/-- Claim C1: for every input (cookie-header-only requests included),
`extractTokenFromRequest` completes without signaling failure: the result
is always an ordinary value, a token or absence, never an error. -/
theorem extractTokenFromRequest_never_fails
    (parse : String → List (String × String))
    (req : RequestView) (config : ExtractConfig) :
    extractTokenFromRequestWith parse req config = none ∨
      ∃ t, extractTokenFromRequestWith parse req config = some t := by
  cases h : extractTokenFromRequestWith parse req config with
  | none => exact Or.inl rfl
  | some t => exact Or.inr ⟨t, rfl⟩

/-- Claim C3: whenever the authorization header is present, non-empty and
contains the substring `"Bearer "`, the result is the header's token
(`split(' ')[1]` of the header value), whatever the body, query and cookie
contents and whatever the cookie parser does. -/
theorem extractTokenFromRequest_header_wins
    (parse : String → List (String × String))
    (req : RequestView) (config : ExtractConfig) (a : String)
    (ha : authHeaderOf req config = some a) (h1 : a ≠ "")
    (h2 : jsIncludes a (BEARER_SCHEME ++ " ") = true) :
    extractTokenFromRequestWith parse req config = (jsSplitSpace a).get? 1 :=
  extract_header_branch parse req config a ha h1 h2

/-- Claim C3 witness: with tokens simultaneously in header, body, query and
cookie, the header's token `"abc123"` is returned. -/
theorem extractTokenFromRequest_header_wins_witness :
    extractTokenFromRequestWith cookieParse
      ⟨some [("access_token", "tok-query")],
       some [("Authorization", "Bearer abc123"), ("Cookie", "access_token=tok-cookie")],
       some [("access_token", "tok-body")]⟩ ⟨none, none⟩ = some "abc123" := by
  rw [extractTokenFromRequest_header_wins cookieParse
    ⟨some [("access_token", "tok-query")],
     some [("Authorization", "Bearer abc123"), ("Cookie", "access_token=tok-cookie")],
     some [("access_token", "tok-body")]⟩ ⟨none, none⟩ "Bearer abc123"
    (by decide) (by decide) (by decide)]
  decide

/-- Claim C4: when the authorization header matches, only the second
whitespace-delimited field of the header value is returned, not the whole
suffix after the first space. -/
theorem extractTokenFromRequest_second_field
    (parse : String → List (String × String))
    (req : RequestView) (config : ExtractConfig)
    (a w0 w1 : String) (rest : List String)
    (ha : authHeaderOf req config = some a) (h1 : a ≠ "")
    (h2 : jsIncludes a (BEARER_SCHEME ++ " ") = true)
    (h3 : jsSplitSpace a = w0 :: w1 :: rest) :
    extractTokenFromRequestWith parse req config = some w1 := by
  rw [extract_header_branch parse req config a ha h1 h2, h3]
  rfl

/-- Claim C4 witness: `"Bearer abc123 extra"` yields `"abc123"`, which is
not the full suffix `"abc123 extra"`. -/
theorem extractTokenFromRequest_second_field_witness :
    extractTokenFromRequestWith cookieParse
      ⟨some [], some [("Authorization", "Bearer abc123 extra")], some []⟩
      ⟨none, none⟩ = some "abc123" ∧ ("abc123" : String) ≠ "abc123 extra" := by
  constructor
  · exact extractTokenFromRequest_second_field cookieParse
      ⟨some [], some [("Authorization", "Bearer abc123 extra")], some []⟩
      ⟨none, none⟩ "Bearer abc123 extra" "Bearer" "abc123" ["extra"]
      (by decide) (by decide) (by decide) (by decide)
  · decide

/-- Claim C9: when `"Bearer "` occurs in the header value but not at its
start, the header branch still fires and the result is the second
whitespace-delimited field of the whole value. -/
theorem extractTokenFromRequest_bearer_mid_value
    (parse : String → List (String × String))
    (req : RequestView) (config : ExtractConfig) (a : String)
    (ha : authHeaderOf req config = some a) (h1 : a ≠ "")
    (h2 : jsIncludes a (BEARER_SCHEME ++ " ") = true)
    (h3 : leadsWith (BEARER_SCHEME ++ " ").toList a.toList = false) :
    extractTokenFromRequestWith parse req config = (jsSplitSpace a).get? 1 :=
  extract_header_branch parse req config a ha h1 h2

/-- Claim C9 witness: `"Basic x Bearer y"` yields `"x"`, the second field
of the whole value, not the text after `"Bearer "`. -/
theorem extractTokenFromRequest_bearer_mid_value_witness :
    extractTokenFromRequestWith cookieParse
      ⟨some [], some [("Authorization", "Basic x Bearer y")], some []⟩
      ⟨none, none⟩ = some "x" := by
  rw [extractTokenFromRequest_bearer_mid_value cookieParse
    ⟨some [], some [("Authorization", "Basic x Bearer y")], some []⟩
    ⟨none, none⟩ "Basic x Bearer y" (by decide) (by decide) (by decide) (by decide)]
  decide

/-- Claim C10: when the field between the first and second space of a
matching authorization header is empty (as after `"Bearer  "` with a
doubled space), the empty string is returned and the body, query and
cookie sources are not consulted. -/
theorem extractTokenFromRequest_bearer_double_space
    (parse : String → List (String × String))
    (req : RequestView) (config : ExtractConfig) (a : String)
    (ha : authHeaderOf req config = some a) (h1 : a ≠ "")
    (h2 : jsIncludes a (BEARER_SCHEME ++ " ") = true)
    (h3 : (jsSplitSpace a).get? 1 = some "") :
    extractTokenFromRequestWith parse req config = some "" := by
  rw [extract_header_branch parse req config a ha h1 h2]
  exact h3

/-- Claim C10 witness: `"Bearer  tok"` yields the empty string even though
the body carries a token. -/
theorem extractTokenFromRequest_bearer_double_space_witness :
    extractTokenFromRequestWith cookieParse
      ⟨some [], some [("Authorization", "Bearer  tok")],
       some [("access_token", "tok-body")]⟩ ⟨none, none⟩ = some "" :=
  extractTokenFromRequest_bearer_double_space cookieParse
    ⟨some [], some [("Authorization", "Bearer  tok")],
     some [("access_token", "tok-body")]⟩ ⟨none, none⟩ "Bearer  tok"
    (by decide) (by decide) (by decide) (by decide)

/-- Claim C5: when the authorization-header guard fails (header absent,
empty, or without the substring `"Bearer "` — another scheme included) and
both the body and the query carry truthy `access_token` values, the body's
token is returned, never the query's. -/
theorem extractTokenFromRequest_body_over_query
    (parse : String → List (String × String))
    (req : RequestView) (config : ExtractConfig) (tb tq : String)
    (h1 : (truthy (authHeaderOf req config)
      && jsIncludes ((authHeaderOf req config).getD "") (BEARER_SCHEME ++ " ")) = false)
    (h2 : fromBodyOf req = some tb) (h3 : tb ≠ "")
    (h4 : fromQueryOf req = some tq) (h5 : tq ≠ "") :
    extractTokenFromRequestWith parse req config = some tb := by
  unfold extractTokenFromRequestWith
  rw [h1, h2]
  simp [truthy, h3]

/-- Claim C5 witness: with a `Basic` authorization header and tokens in
both body and query, the body's token is returned. -/
theorem extractTokenFromRequest_body_over_query_witness :
    extractTokenFromRequestWith cookieParse
      ⟨some [("access_token", "tok-query")], some [("Authorization", "Basic Zm9v")],
       some [("access_token", "tok-body")]⟩ ⟨none, none⟩ = some "tok-body" :=
  extractTokenFromRequest_body_over_query cookieParse
    ⟨some [("access_token", "tok-query")], some [("Authorization", "Basic Zm9v")],
     some [("access_token", "tok-body")]⟩ ⟨none, none⟩ "tok-body" "tok-query"
    (by decide) (by decide) (by decide) (by decide) (by decide)

/-- Claim C2: for a request whose headers hold only the cookie header,
with empty body and query, if the cookie header string parses to a mapping
whose `access_token` entry is a non-empty token, that token is returned. -/
theorem extractTokenFromRequest_cookie_access_token
    (ck t : String) (hck : ck ≠ "")
    (h : jsGet (cookieParse ck) ACCESS_TOKEN_PARAMETER = some t) (ht : t ≠ "") :
    extractTokenFromRequest ⟨some [], some [(COOKIE_HEADER, ck)], some []⟩ ⟨none, none⟩
      = some t := by
  unfold extractTokenFromRequest
  rw [extract_past_three cookieParse
    ⟨some [], some [(COOKIE_HEADER, ck)], some []⟩ ⟨none, none⟩ rfl rfl rfl]
  have hc : cookieHeaderOf ⟨some [], some [(COOKIE_HEADER, ck)], some []⟩ ⟨none, none⟩
      = some ck := rfl
  rw [hc]
  simp [truthy, hck, h, ht]

/-- Claim C2 witness: `headers.Cookie = "access_token=tok3; other=x"` with
empty body and query yields `"tok3"`. -/
theorem extractTokenFromRequest_cookie_access_token_witness :
    extractTokenFromRequest
      ⟨some [], some [(COOKIE_HEADER, "access_token=tok3; other=x")], some []⟩
      ⟨none, none⟩ = some "tok3" :=
  extractTokenFromRequest_cookie_access_token "access_token=tok3; other=x" "tok3"
    (by decide) (by decide) (by decide)

/-- Claim C6: when no source yields a token — the header guard fails, body
and query tokens are falsy, and any present cookie header parses to a
mapping without a truthy `access_token` — the result is absent. -/
theorem extractTokenFromRequest_absent_when_no_source
    (parse : String → List (String × String))
    (req : RequestView) (config : ExtractConfig)
    (h1 : (truthy (authHeaderOf req config)
      && jsIncludes ((authHeaderOf req config).getD "") (BEARER_SCHEME ++ " ")) = false)
    (h2 : truthy (fromBodyOf req) = false)
    (h3 : truthy (fromQueryOf req) = false)
    (h4 : ∀ ch, cookieHeaderOf req config = some ch →
      truthy (jsGet (parse ch) ACCESS_TOKEN_PARAMETER) = false) :
    extractTokenFromRequestWith parse req config = none := by
  rw [extract_past_three parse req config h1 h2 h3]
  cases hc : cookieHeaderOf req config with
  | none => simp [truthy]
  | some ch =>
    by_cases hch : ch = ""
    · subst hch
      simp [truthy]
    · have ht := h4 ch hc
      have hts : truthy (some ch) = true := by simp [truthy, hch]
      simp only [Option.getD_some]
      rw [hts, ht]
      simp

/-- Claim C6 witness: a cookie header whose parsed mapping has no
`access_token` entry, with all other sources empty, yields absence. -/
theorem extractTokenFromRequest_absent_when_no_source_witness :
    extractTokenFromRequestWith cookieParse
      ⟨some [], some [(COOKIE_HEADER, "other=x")], some []⟩ ⟨none, none⟩ = none := by
  have h4 : ∀ ch, cookieHeaderOf ⟨some [], some [(COOKIE_HEADER, "other=x")], some []⟩
      ⟨none, none⟩ = some ch →
      truthy (jsGet (cookieParse ch) ACCESS_TOKEN_PARAMETER) = false := by
    intro ch hch
    have hch2 : some "other=x" = some ch := hch
    injection hch2 with he
    subst he
    decide
  exact extractTokenFromRequest_absent_when_no_source cookieParse
    ⟨some [], some [(COOKIE_HEADER, "other=x")], some []⟩ ⟨none, none⟩ rfl rfl rfl h4

/-- Claim C7: extraction reads the authorization header at the configured
`authorizationHeaderKey` (with the usual `"Bearer "` rule) and the cookie
header at the configured `cookieHeaderKey`; a missing configuration
behaves exactly as the explicit defaults `"Authorization"` / `"Cookie"`. -/
theorem extractTokenFromRequest_config_keys :
    (∀ parse req, extractTokenFromRequestWith parse req ⟨none, none⟩ =
        extractTokenFromRequestWith parse req ⟨some AUTHORIZATION_HEADER, some COOKIE_HEADER⟩)
    ∧ (∀ parse q hs b ck k a, jsGet hs k = some a → a ≠ "" →
        jsIncludes a (BEARER_SCHEME ++ " ") = true →
        extractTokenFromRequestWith parse ⟨q, some hs, b⟩ ⟨some k, ck⟩
          = (jsSplitSpace a).get? 1)
    ∧ (∀ parse k hs c, jsGet hs AUTHORIZATION_HEADER = none →
        jsGet hs k = some c → c ≠ "" →
        extractTokenFromRequestWith parse ⟨none, some hs, none⟩ ⟨none, some k⟩
          = (if truthy (jsGet (parse c) ACCESS_TOKEN_PARAMETER) then
              jsGet (parse c) ACCESS_TOKEN_PARAMETER
            else none)) := by
  refine ⟨?_, ?_, ?_⟩
  · intro parse req
    rfl
  · intro parse q hs b ck k a hjs h1 h2
    exact extract_header_branch parse ⟨q, some hs, b⟩ ⟨some k, ck⟩ a hjs h1 h2
  · intro parse k hs c hna hc hcne
    have h1 : (truthy (authHeaderOf ⟨none, some hs, none⟩ ⟨none, some k⟩)
        && jsIncludes ((authHeaderOf ⟨none, some hs, none⟩ ⟨none, some k⟩).getD "")
          (BEARER_SCHEME ++ " ")) = false := by
      have hn : authHeaderOf ⟨none, some hs, none⟩ ⟨none, some k⟩ = none := hna
      rw [hn]
      rfl
    rw [extract_past_three parse ⟨none, some hs, none⟩ ⟨none, some k⟩ h1 rfl rfl]
    have hck : cookieHeaderOf ⟨none, some hs, none⟩ ⟨none, some k⟩ = some c := hc
    rw [hck]
    simp [truthy, hcne]

/-- Claim C7 witness: with `authorizationHeaderKey = "X-Auth"`, the token
is read from `headers["X-Auth"]`. -/
theorem extractTokenFromRequest_config_keys_witness :
    extractTokenFromRequestWith cookieParse
      ⟨some [], some [("X-Auth", "Bearer abc123")], some []⟩
      ⟨some "X-Auth", none⟩ = some "abc123" := by
  rw [extractTokenFromRequest_config_keys.2.1 cookieParse (some [])
    [("X-Auth", "Bearer abc123")] (some []) none "X-Auth" "Bearer abc123"
    (by decide) (by decide) (by decide)]
  decide

/-- Claim C8: extraction is a pure function of its inputs — two calls on
identical request views and configurations return identical results; the
shallow embedding has no state to mutate. -/
theorem extractTokenFromRequest_pure
    (parse : String → List (String × String))
    (r1 r2 : RequestView) (c1 c2 : ExtractConfig)
    (hreq : r1 = r2) (hcfg : c1 = c2) :
    extractTokenFromRequestWith parse r1 c1 = extractTokenFromRequestWith parse r2 c2 := by
  rw [hreq, hcfg]

/-- Claim C8 witness: a repeated call on the empty request view returns
the same result. -/
theorem extractTokenFromRequest_pure_witness :
    extractTokenFromRequestWith cookieParse ⟨none, none, none⟩ ⟨none, none⟩
      = extractTokenFromRequestWith cookieParse ⟨none, none, none⟩ ⟨none, none⟩ :=
  extractTokenFromRequest_pure cookieParse ⟨none, none, none⟩ ⟨none, none, none⟩
    ⟨none, none⟩ ⟨none, none⟩ rfl rfl
